import Mathlib

/-!
# Shallow embedding of the SHLF-GHL-AUTOMATIONS reconciliation engine

This file embeds, in Lean 4, the parts of the repository that implement the
cross-system reconciliation engine:

* `src/services/invoiceService.js` — the ledger (Supabase) operations on the
  `invoices` and `confido_payments` tables;
* `src/server.js` — the `POST /webhooks/ghl/invoice-created` and
  `POST /webhooks/confido/payment-received` handlers;
* `src/unnamed/part_002` — `processTaskCompletion`, the task-completion →
  stage-move flow.

JavaScript strings become `String`, nullable/optional values become `Option`,
monetary amounts (JS numbers fed through `parseFloat`) become `Int`, and the
Supabase tables become Lean lists of record structures.  Each fallible external
call (a Supabase query, a GHL or Confido API call) is given an explicit outcome
parameter, so a handler is a pure function of its request, the store, and the
vector of outcomes of the external calls it makes.  Wall-clock reads
(`new Date().toISOString()`) become an explicit `now : String` parameter.

Two pieces of the engine are referenced by the code under `src/` but their own
source is not in the repository snapshot: `src/services/confidoService.js`
(`createInvoice`, `verifyWebhookSignature`) and the consistency poller.  Those
are modelled from the spec and are marked `Modelled from the spec:` in their
doc comments.
-/

/-- JavaScript truthiness for an optional string: `undefined`, `null` and the
empty string are falsy (`!x` in the source). -/
def strTruthy : Option String → Bool
  | none => false
  | some s => s ≠ ""

/-- JavaScript `a || b` on optional strings: take `a` unless it is falsy. -/
def jsOr (a b : Option String) : Option String :=
  if strTruthy a then a else b

/-- JavaScript `a || d` with a string default. -/
def jsOrD (a : Option String) (d : String) : String :=
  if strTruthy a then a.getD d else d

/-- A row of the Supabase `invoices` table, with exactly the columns written by
`saveInvoiceToSupabase` in `src/services/invoiceService.js` (lines 23–39).
The database-assigned serial `id` column is not modelled; rows are identified
by their unique `ghl_invoice_id` key. -/
structure InvoiceRow where
  ghl_invoice_id : String
  ghl_opportunity_id : Option String
  ghl_contact_id : Option String
  opportunity_name : Option String
  primary_contact_name : Option String
  confido_invoice_id : Option String
  confido_client_id : Option String
  confido_matter_id : Option String
  invoice_number : Option String
  amount_due : Int
  amount_paid : Int
  status : String
  invoice_date : Option String
  due_date : Option String
  paid_date : Option String
  deriving Repr, DecidableEq

/-- A row of the Supabase `confido_payments` table, with exactly the columns
written by `savePaymentToSupabase` (`src/services/invoiceService.js`
lines 228–239).  `raw_webhook_data` is the opaque stored request payload. -/
structure PaymentRow where
  confido_payment_id : String
  confido_invoice_id : Option String
  ghl_invoice_id : Option String
  ghl_contact_id : Option String
  ghl_opportunity_id : Option String
  amount : Int
  payment_method : Option String
  status : String
  transaction_date : Option String
  raw_webhook_data : Option String
  deriving Repr, DecidableEq

/-- The persisted ledger: the two Supabase tables the payment/invoice flows
write (`invoices` unique on `ghl_invoice_id`, `confido_payments` unique on
`confido_payment_id`). -/
structure Store where
  invoices : List InvoiceRow
  confido_payments : List PaymentRow
  deriving Repr, DecidableEq

/-- Supabase `upsert(record, { onConflict: key })` semantics on the `invoices`
table: replace every row carrying the conflict key, otherwise append. -/
def upsertInvoice (r : InvoiceRow) (rows : List InvoiceRow) : List InvoiceRow :=
  if rows.any (fun x => x.ghl_invoice_id = r.ghl_invoice_id) then
    rows.map (fun x => if x.ghl_invoice_id = r.ghl_invoice_id then r else x)
  else
    rows ++ [r]

/-- Supabase upsert on the `confido_payments` table, `onConflict:
confido_payment_id`. -/
def upsertPayment (r : PaymentRow) (rows : List PaymentRow) : List PaymentRow :=
  if rows.any (fun x => x.confido_payment_id = r.confido_payment_id) then
    rows.map (fun x => if x.confido_payment_id = r.confido_payment_id then r else x)
  else
    rows ++ [r]

/-- The `{ success, data?, error? }` result shape every function of
`invoiceService.js` returns. -/
structure SvcResult (α : Type) where
  success : Bool
  data : Option α
  error : Option String
  deriving Repr, DecidableEq

/-- Input of `saveInvoiceToSupabase` (the `invoiceData` argument). -/
structure InvoiceData where
  ghlInvoiceId : String
  opportunityId : Option String
  contactId : Option String
  opportunityName : Option String
  primaryContactName : Option String
  confidoInvoiceId : Option String
  confidoClientId : Option String
  confidoMatterId : Option String
  invoiceNumber : Option String
  amountDue : Int
  amountPaid : Option Int
  status : Option String
  invoiceDate : Option String
  dueDate : Option String
  paidDate : Option String
  deriving Repr, DecidableEq

/-- The record `saveInvoiceToSupabase` builds from its argument
(`src/services/invoiceService.js` lines 23–39): `confido_*` ids and
`paid_date` default to null, `amount_paid` to 0, `status` to `'pending'`. -/
def invoiceRecordOf (d : InvoiceData) : InvoiceRow :=
  { ghl_invoice_id := d.ghlInvoiceId
    ghl_opportunity_id := d.opportunityId
    ghl_contact_id := d.contactId
    opportunity_name := d.opportunityName
    primary_contact_name := d.primaryContactName
    confido_invoice_id := jsOr d.confidoInvoiceId none
    confido_client_id := jsOr d.confidoClientId none
    confido_matter_id := jsOr d.confidoMatterId none
    invoice_number := d.invoiceNumber
    amount_due := d.amountDue
    amount_paid := d.amountPaid.getD 0
    status := jsOrD d.status "pending"
    invoice_date := d.invoiceDate
    due_date := d.dueDate
    paid_date := jsOr d.paidDate none }

/-- `saveInvoiceToSupabase` (`src/services/invoiceService.js` lines 18–70):
upsert the built record into `invoices` keyed on `ghl_invoice_id`.  `dbOk`
is the outcome of the Supabase call; on error the function catches and
returns `{ success: false, error }` leaving the table unchanged. -/
def saveInvoiceToSupabase (d : InvoiceData) (dbOk : Bool) (st : Store) :
    SvcResult InvoiceRow × Store :=
  if dbOk then
    let r := invoiceRecordOf d
    (⟨true, some r, none⟩, { st with invoices := upsertInvoice r st.invoices })
  else
    (⟨false, none, some "db error"⟩, st)

/-- The payment fields `updateInvoicePaymentStatus` receives. -/
structure PaymentPatch where
  amount : Int
  transactionDate : Option String
  deriving Repr, DecidableEq

/-- `updateInvoicePaymentStatus` (`src/services/invoiceService.js` lines
78–126): set `amount_paid := amount`, `status := 'paid'`,
`paid_date := transactionDate || now` on every row whose
`confido_invoice_id` equals the given id.  `.single()` makes a zero-row
update an error, so the function reports failure when no row matches; on a
database error (`dbOk = false`) it also reports failure and leaves the table
unchanged.  (The source additionally touches the `updated_at` timestamp
column, which is not modelled.) -/
def updateInvoicePaymentStatus (confidoInvoiceId : String) (p : PaymentPatch)
    (now : String) (dbOk : Bool) (st : Store) : SvcResult InvoiceRow × Store :=
  if dbOk then
    let patch := fun (x : InvoiceRow) =>
      { x with amount_paid := p.amount
               status := "paid"
               paid_date := some (jsOrD p.transactionDate now) }
    match st.invoices.find? (fun x => x.confido_invoice_id = some confidoInvoiceId) with
    | none => (⟨false, none, some "Invoice not found"⟩, st)
    | some row =>
        (⟨true, some (patch row), none⟩,
         { st with invoices := st.invoices.map (fun x =>
             if x.confido_invoice_id = some confidoInvoiceId then patch x else x) })
  else
    (⟨false, none, some "db error"⟩, st)

/-- `getInvoiceByconfidoId` (`src/services/invoiceService.js` lines 178–216):
select the row whose `confido_invoice_id` matches; zero rows is reported as
`{ success: true, data: null }` (the `PGRST116` branch), a database error as
`{ success: false }`. -/
def getInvoiceByconfidoId (confidoInvoiceId : String) (dbOk : Bool) (st : Store) :
    SvcResult InvoiceRow :=
  if dbOk then
    match st.invoices.find? (fun x => x.confido_invoice_id = some confidoInvoiceId) with
    | none => ⟨true, none, none⟩
    | some row => ⟨true, some row, none⟩
  else
    ⟨false, none, some "db error"⟩

/-- `getInvoiceByGHLId` (`src/services/invoiceService.js` lines 133–171):
select the row whose `ghl_invoice_id` matches; zero rows is
`{ success: true, data: null }`. -/
def getInvoiceByGHLId (ghlInvoiceId : String) (dbOk : Bool) (st : Store) :
    SvcResult InvoiceRow :=
  if dbOk then
    match st.invoices.find? (fun x => x.ghl_invoice_id = ghlInvoiceId) with
    | none => ⟨true, none, none⟩
    | some row => ⟨true, some row, none⟩
  else
    ⟨false, none, some "db error"⟩

/-- Input of `savePaymentToSupabase` (the `paymentData` argument). -/
structure PaymentData where
  confidoPaymentId : String
  confidoInvoiceId : Option String
  ghlInvoiceId : Option String
  ghlContactId : Option String
  ghlOpportunityId : Option String
  amount : Int
  paymentMethod : Option String
  status : Option String
  transactionDate : Option String
  rawWebhookData : Option String
  deriving Repr, DecidableEq

/-- The record `savePaymentToSupabase` builds (`src/services/invoiceService.js`
lines 228–239): `status` defaults to `'completed'`, `raw_webhook_data` to
null. -/
def paymentRecordOf (d : PaymentData) : PaymentRow :=
  { confido_payment_id := d.confidoPaymentId
    confido_invoice_id := d.confidoInvoiceId
    ghl_invoice_id := d.ghlInvoiceId
    ghl_contact_id := d.ghlContactId
    ghl_opportunity_id := d.ghlOpportunityId
    amount := d.amount
    payment_method := d.paymentMethod
    status := jsOrD d.status "completed"
    transaction_date := d.transactionDate
    raw_webhook_data := jsOr d.rawWebhookData none }

/-- `savePaymentToSupabase` (`src/services/invoiceService.js` lines 223–270):
upsert into `confido_payments` keyed on `confido_payment_id`; a database
error is caught and reported as `{ success: false }` with the table
unchanged. -/
def savePaymentToSupabase (d : PaymentData) (dbOk : Bool) (st : Store) :
    SvcResult PaymentRow × Store :=
  if dbOk then
    let r := paymentRecordOf d
    (⟨true, some r, none⟩,
     { st with confido_payments := upsertPayment r st.confido_payments })
  else
    (⟨false, none, some "db error"⟩, st)

/-- JavaScript truthiness for an optional number (`0` is falsy). -/
def intTruthy : Option Int → Bool
  | none => false
  | some n => n ≠ 0

/-- JavaScript `parseFloat(a || b || 0)` on already-numeric fields. -/
def jsOrInt (a b : Option Int) : Int :=
  if intTruthy a then a.getD 0 else if intTruthy b then b.getD 0 else 0

/-- The request reaching `POST /webhooks/confido/payment-received`
(`src/server.js` lines 999–1179): the two signature headers the handler
consults and every body field the extraction block (lines 1026–1033) reads,
under the exact alternate names the source tries.  `raw` stands for the whole
JSON body, stored opaquely as `raw_webhook_data`. -/
structure PaymentReq where
  x_confido_signature : Option String
  x_webhook_signature : Option String
  payment_id : Option String
  paymentId : Option String
  id : Option String
  invoice_id : Option String
  invoiceId : Option String
  amount : Option Int
  payment_amount : Option Int
  payment_method : Option String
  paymentMethod : Option String
  status : Option String
  transaction_date : Option String
  transactionDate : Option String
  raw : String
  deriving Repr, DecidableEq

/-- Outcomes of the external calls the payment-received handler makes:
signature verification (in the absent `confidoService`), the three Supabase
calls, and the two best-effort GHL calls. -/
structure PaymentOutcomes where
  sigValid : Bool
  lookupDbOk : Bool
  updateDbOk : Bool
  insertDbOk : Bool
  ghlRecordOk : Bool
  ghlTaskOk : Bool
  deriving Repr, DecidableEq

/-- The externally visible calls the payment-received handler performs, in
program order.  The best-effort GHL steps record whether the call succeeded
(its failure is caught and only logged, `src/server.js` lines 1130–1133 and
1154–1157). -/
inductive Step where
  | lookupInvoice : Step
  | updateInvoiceStatus : Step
  | insertPaymentRow : Step
  | mirrorGhlPayment (ok : Bool) : Step
  | createGhlTask (ok : Bool) : Step
  deriving Repr, DecidableEq, BEq

/-- The JSON responses of the payment-received handler, one constructor per
`res...json(...)` site, carrying the data fields of that response object.
Database serial `id` values are represented by the row they identify, so
`paymentId: paymentRecord.data?.id` becomes the optional saved row. -/
inductive PaymentResp where
  | unauthorized : PaymentResp
  | badRequest (message : String) : PaymentResp
  | notFound (message : String) (confidoInvoiceId : String) : PaymentResp
  | serverError (message : String) (error : Option String) : PaymentResp
  | ok (message : String) (paymentId : Option PaymentRow) (confidoPaymentId : String)
      (ghlInvoiceId : String) (amount : Int) (invoiceStatus : String) : PaymentResp
  deriving Repr, DecidableEq

/-- Result of one run of the payment-received handler: the HTTP response, the
final ledger state, and the ordered trace of external calls performed. -/
structure PaymentRun where
  resp : PaymentResp
  store : Store
  trace : List Step
  deriving Repr, DecidableEq

/-- `POST /webhooks/confido/payment-received` (`src/server.js` lines
999–1179), step for step: optional signature check (only when one of the two
signature headers is present), field extraction with JS `||` fallbacks,
the three 400 validations, invoice lookup by Confido invoice id (404 when
absent), invoice status update (500 when it fails), payment-row upsert
(result not checked by the source), then the two best-effort GHL side
effects guarded by the invoice's ids, whose errors are caught.  `now` is
`new Date().toISOString()`. -/
def processPaymentWebhook (req : PaymentReq) (oc : PaymentOutcomes) (now : String)
    (st : Store) : PaymentRun :=
  let signature := jsOr req.x_confido_signature req.x_webhook_signature
  if strTruthy signature && !oc.sigValid then
    ⟨.unauthorized, st, []⟩
  else
    let confidoPaymentId := jsOr (jsOr req.payment_id req.paymentId) req.id
    let confidoInvoiceId := jsOr req.invoice_id req.invoiceId
    let amount := jsOrInt req.amount req.payment_amount
    let payMethod := jsOr req.payment_method req.paymentMethod
    let payStatus := jsOrD req.status "completed"
    let txnDate := jsOrD (jsOr req.transaction_date req.transactionDate) now
    if !strTruthy confidoPaymentId then
      ⟨.badRequest "Missing required field: payment ID", st, []⟩
    else if !strTruthy confidoInvoiceId then
      ⟨.badRequest "Missing required field: invoice ID", st, []⟩
    else if amount ≤ 0 then
      ⟨.badRequest "Missing or invalid payment amount", st, []⟩
    else
      let cid := confidoInvoiceId.getD ""
      let pid := confidoPaymentId.getD ""
      match getInvoiceByconfidoId cid oc.lookupDbOk st with
      | ⟨false, _, _⟩ =>
          ⟨.notFound "Invoice not found in database" cid, st, [.lookupInvoice]⟩
      | ⟨true, none, _⟩ =>
          ⟨.notFound "Invoice not found in database" cid, st, [.lookupInvoice]⟩
      | ⟨true, some invoice, _⟩ =>
          let upd := updateInvoicePaymentStatus cid ⟨amount, some txnDate⟩ now
                      oc.updateDbOk st
          if !upd.1.success then
            ⟨.serverError "Failed to update invoice status" upd.1.error, upd.2,
             [.lookupInvoice, .updateInvoiceStatus]⟩
          else
            let sav := savePaymentToSupabase
              { confidoPaymentId := pid
                confidoInvoiceId := confidoInvoiceId
                ghlInvoiceId := some invoice.ghl_invoice_id
                ghlContactId := invoice.ghl_contact_id
                ghlOpportunityId := invoice.ghl_opportunity_id
                amount := amount
                paymentMethod := payMethod
                status := some payStatus
                transactionDate := some txnDate
                rawWebhookData := some req.raw } oc.insertDbOk upd.2
            let t3 := [Step.lookupInvoice, Step.updateInvoiceStatus, Step.insertPaymentRow]
            let t4 := if strTruthy (some invoice.ghl_invoice_id) then
                        t3 ++ [Step.mirrorGhlPayment oc.ghlRecordOk] else t3
            let t5 := if strTruthy invoice.ghl_opportunity_id then
                        t4 ++ [Step.createGhlTask oc.ghlTaskOk] else t4
            ⟨.ok "Payment processed successfully" sav.1.data pid
               invoice.ghl_invoice_id amount "paid", sav.2, t5⟩

/-- The `webhookData` object the invoice-created handler builds from the raw
GHL payload (`src/server.js` lines 838–852).  The handler is modelled from
this normalized shape onward; `lineItems` is opaque (it is only forwarded to
the billing gateway). -/
structure InvWebhookData where
  ghlInvoiceId : Option String
  opportunityId : Option String
  contactId : Option String
  opportunityName : Option String
  primaryContactName : Option String
  contactEmail : Option String
  contactPhone : Option String
  invoiceNumber : Option String
  amountDue : Int
  invoiceDate : Option String
  dueDate : Option String
  status : Option String
  lineItems : List String
  deriving Repr, DecidableEq

/-- Modelled from the spec: the outcome of the billing gateway's payment-link
creation chain (client → matter → payment link, §4.3 step 3 and §4.2).
`src/services/confidoService.js` is absent from the snapshot, so the three
outcome shapes the spec distinguishes are carried by this oracle type:
creation succeeded with fresh identifiers, creation signalled
`DuplicatePaymentLink`, or some other gateway failure. -/
inductive BillingSignal where
  | created (clientId matterId paymentLinkId paymentUrl : String)
      (status : Option String) (paid total outstanding : Option Int) : BillingSignal
  | duplicatePaymentLink : BillingSignal
  | failed (err : String) : BillingSignal
  deriving Repr, DecidableEq

/-- The result object `confidoService.createInvoice` hands back to the
invoice-created handler (the fields `src/server.js` lines 929–984 reads). -/
structure ConfidoResult where
  success : Bool
  confidoClientId : Option String
  confidoMatterId : Option String
  confidoInvoiceId : Option String
  paymentUrl : Option String
  status : Option String
  paid : Option Int
  total : Option Int
  outstanding : Option Int
  error : Option String
  deriving Repr, DecidableEq

/-- Modelled from the spec: the ledger-row view the billing gateway's
duplicate-recovery path reads.  §4.3 step 4 stores "billing identifiers,
payment URL" on the ledger row, and the repository's extended
invoice-service variant (`src/unnamed/part_000`) indeed has a `payment_url`
column; the invoice-service variant the handler imports does not, so the
stored payment URL is modelled as this (CRM invoice id → payment URL)
view. -/
structure LedgerLink where
  crmInvoiceId : String
  paymentUrl : String
  deriving Repr, DecidableEq

/-- Modelled from the spec: `confidoService.createInvoice`
(`src/services/confidoService.js` is absent from the snapshot).  §4.3
step 3: if payment-link creation signals `DuplicatePaymentLink`, look up the
existing ledger row by CRM invoice id and return its stored payment URL as a
success instead of erroring; any other gateway failure is reported as an
unsuccessful result. -/
def confidoCreateInvoice (signal : BillingSignal) (ghlInvoiceId : String)
    (ledger : List LedgerLink) : ConfidoResult :=
  match signal with
  | .created c m l url stat paid total outst =>
      ⟨true, some c, some m, some l, some url, stat, paid, total, outst, none⟩
  | .duplicatePaymentLink =>
      match ledger.find? (fun e => e.crmInvoiceId = ghlInvoiceId) with
      | some e =>
          ⟨true, none, none, none, some e.paymentUrl, none, none, none, none, none⟩
      | none =>
          ⟨false, none, none, none, none, none, none, none, none,
           some "Duplicate payment link but no prior ledger row"⟩
  | .failed msg =>
      ⟨false, none, none, none, none, none, none, none, none, some msg⟩

/-- The summary of the billing result the invoice-created handler embeds in
its success response (`src/server.js` lines 975–984). -/
structure ConfidoOut where
  invoiceId : Option String
  clientId : Option String
  matterId : Option String
  paymentUrl : Option String
  status : Option String
  total : Option Int
  paid : Option Int
  outstanding : Option Int
  deriving Repr, DecidableEq

/-- The JSON responses of the invoice-created handler, one constructor per
`res...json(...)` site.  `savedConfidoFailed` is the HTTP-200
`success: true, confidoCreated: false` response of lines 932–939. -/
inductive InvResp where
  | badRequest (message : String) : InvResp
  | serverError (message : String) (error : Option String) : InvResp
  | savedConfidoFailed (message : String) (ghlInvoiceId : String)
      (confidoError : Option String) : InvResp
  | created (message : String) (ghlInvoiceId : String) (confido : ConfidoOut)
      (amountDue : Int) : InvResp
  deriving Repr, DecidableEq

/-- Outcomes of the external calls the invoice-created handler makes: the
best-effort GHL contact fetch (its derived name, `none` when it failed or
returned no contact), the two Supabase upserts, and the billing gateway. -/
structure InvoiceOutcomes where
  fetchedContactName : Option String
  db1Ok : Bool
  signal : BillingSignal
  db2Ok : Bool
  deriving Repr, DecidableEq

/-- `POST /webhooks/ghl/invoice-created` (`src/server.js` lines 822–996) from
the normalized `webhookData` onward: the two 400 validations, the
best-effort contact-name fetch, the first ledger upsert (500 on failure),
the billing-gateway call (on failure an HTTP-200 `confidoCreated: false`
response keeping the ledger row), the second ledger upsert carrying the
billing identifiers (its result unchecked by the source, lines 951–966), and
the success response. -/
def processInvoiceCreated (w : InvWebhookData) (oc : InvoiceOutcomes)
    (ledger : List LedgerLink) (st : Store) : InvResp × Store :=
  if !strTruthy w.ghlInvoiceId then
    (.badRequest "Missing required field: invoice ID", st)
  else if w.amountDue ≤ 0 then
    (.badRequest "Missing or invalid amount due", st)
  else
    let gid := w.ghlInvoiceId.getD ""
    let contactName :=
      if strTruthy w.contactId && !strTruthy w.primaryContactName then
        match oc.fetchedContactName with
        | some n => some n
        | none => w.primaryContactName
      else w.primaryContactName
    let save1 := saveInvoiceToSupabase
      { ghlInvoiceId := gid
        opportunityId := w.opportunityId
        contactId := w.contactId
        opportunityName := w.opportunityName
        primaryContactName := contactName
        confidoInvoiceId := none
        confidoClientId := none
        confidoMatterId := none
        invoiceNumber := w.invoiceNumber
        amountDue := w.amountDue
        amountPaid := some 0
        status := w.status
        invoiceDate := w.invoiceDate
        dueDate := w.dueDate
        paidDate := none } oc.db1Ok st
    if !save1.1.success then
      (.serverError "Failed to save invoice to database" save1.1.error, save1.2)
    else
      let confidoResult := confidoCreateInvoice oc.signal gid ledger
      if !confidoResult.success then
        (.savedConfidoFailed "Invoice saved but Confido creation failed" gid
          confidoResult.error, save1.2)
      else
        let save2 := saveInvoiceToSupabase
          { ghlInvoiceId := gid
            opportunityId := w.opportunityId
            contactId := w.contactId
            opportunityName := w.opportunityName
            primaryContactName := contactName
            confidoInvoiceId := confidoResult.confidoInvoiceId
            confidoClientId := confidoResult.confidoClientId
            confidoMatterId := confidoResult.confidoMatterId
            invoiceNumber := w.invoiceNumber
            amountDue := w.amountDue
            amountPaid := some (confidoResult.paid.getD 0)
            status := some (jsOrD confidoResult.status "unpaid")
            invoiceDate := w.invoiceDate
            dueDate := w.dueDate
            paidDate := none } oc.db2Ok save1.2
        (.created "Invoice created successfully in both systems" gid
          { invoiceId := confidoResult.confidoInvoiceId
            clientId := confidoResult.confidoClientId
            matterId := confidoResult.confidoMatterId
            paymentUrl := confidoResult.paymentUrl
            status := confidoResult.status
            total := confidoResult.total
            paid := confidoResult.paid
            outstanding := confidoResult.outstanding } w.amountDue, save2.2)

/-- The task-completion webhook data `processTaskCompletion` destructures
(`src/unnamed/part_002` lines 453–456). -/
structure TaskData where
  contactId : Option String
  title : Option String
  opportunityId : Option String
  taskId : Option String
  deriving Repr, DecidableEq

/-- One opportunity as returned by `searchOpportunitiesByContact` (the fields
lines 480–481 read). -/
structure OppSearchItem where
  id : String
  status : Option String
  deriving Repr, DecidableEq

/-- The opportunity detail the GHL `GET /opportunities/:id` call yields
(lines 508–510): the current stage and pipeline. -/
structure OppDetails where
  pipelineStageId : Option String
  stageId : Option String
  pipelineId : Option String
  deriving Repr, DecidableEq

/-- A row of the read-only `stage_completion_mappings` configuration table
(the columns lines 527–568 read). -/
structure StageMapping where
  source_stage_id : String
  active : Bool
  target_stage_id : Option String
  target_pipeline_id : Option String
  source_stage_name : Option String
  target_pipeline_name : Option String
  target_stage_name : Option String
  deriving Repr, DecidableEq

/-- Outcomes of the external calls `processTaskCompletion` makes: the
opportunity search (rethrown on error, lines 487–490), the opportunity
detail fetch (an uncaught `await` failure propagates), the
`stage_completion_mappings` table and whether its query errored (thrown,
lines 534–537), and the stage-move call. -/
structure TaskEnv where
  search : Except String (List OppSearchItem)
  fetchOpp : Except String OppDetails
  mappings : List StageMapping
  mappingQueryOk : Bool
  updateStageOk : Bool
  deriving Repr

/-- The `movedTo` object of a successful stage move (lines 564–569). -/
structure MovedTo where
  pipelineId : Option String
  pipelineName : Option String
  stageId : Option String
  stageName : Option String
  deriving Repr, DecidableEq

/-- Result of `processTaskCompletion`: either the `{ success: true, message,
movedTo? }` object it returns, or the error it rethrows (line 573), which
the webhook route turns into a 500. -/
inductive TaskResult where
  | ok (message : String) (movedTo : Option MovedTo) : TaskResult
  | thrown (err : String) : TaskResult
  deriving Repr, DecidableEq

/-- The fixed sentinel task title (`src/unnamed/part_002` line 515). -/
def finalTaskTitle : String :=
  "Final follow-up call—if no answer, send final text and close the matter."

/-- The supabase query of lines 527–532: rows of `stage_completion_mappings`
with the given `source_stage_id` and `active = true`, `limit(1)`. -/
def activeMappingsFor (table : List StageMapping) (stageId : Option String) :
    List StageMapping :=
  (table.filter (fun m => some m.source_stage_id = stageId && m.active)).take 1

/-- `processTaskCompletion` from the opportunity-detail fetch onward
(`src/unnamed/part_002` lines 493–575).  Returns the result together with
whether `updateOpportunityStage` was invoked (i.e. whether the opportunity's
stage was changed).  The fetched opportunity is the oracle's `fetchOpp`;
which id was fetched does not alter the control flow. -/
def taskAfterResolve (t : TaskData) (env : TaskEnv) : TaskResult × Bool :=
  match env.fetchOpp with
  | .error e => (.thrown e, false)
  | .ok od =>
    let currentStageId := jsOr od.pipelineStageId od.stageId
    if t.title ≠ some finalTaskTitle then
      (.ok "Not the final task" none, false)
    else if !env.mappingQueryOk then
      (.thrown "Error fetching stage mapping", false)
    else
      match activeMappingsFor env.mappings currentStageId with
      | [] => (.ok "No stage mapping configured" none, false)
      | m :: _ =>
        if !strTruthy m.target_stage_id then
          (.ok "Target stage ID not configured yet" none, false)
        else if !env.updateStageOk then
          (.thrown "Failed to update opportunity stage", false)
        else
          let pname := m.target_pipeline_name.getD "undefined"
          let sname := m.target_stage_name.getD "undefined"
          (.ok ("Opportunity moved to " ++ pname ++ " - " ++ sname)
            (some ⟨m.target_pipeline_id, m.target_pipeline_name,
                   m.target_stage_id, m.target_stage_name⟩), true)

/-- `processTaskCompletion` (`src/unnamed/part_002` lines 453–575): missing
contact id is a no-op; a missing opportunity id triggers the search, whose
empty result is a no-op and whose failure is rethrown; then the stage lookup
and mapping logic of `taskAfterResolve`. -/
def processTaskCompletion (t : TaskData) (env : TaskEnv) : TaskResult × Bool :=
  if !strTruthy t.contactId then
    (.ok "No contact to process" none, false)
  else if strTruthy t.opportunityId then
    taskAfterResolve t env
  else
    match env.search with
    | .error e => (.thrown e, false)
    | .ok opps =>
      if opps.isEmpty then (.ok "No opportunity found for contact" none, false)
      else taskAfterResolve t env

/-- Modelled from the spec: the Consistency Poller's result, "data complete"
or "exhausted" (§3 Reconciliation Attempt, §4.4). -/
inductive PollResult (α : Type) where
  | complete (data : α) : PollResult α
  | exhausted : PollResult α
  deriving Repr, DecidableEq

/-- Modelled from the spec: one `pollUntil` run — its result, the number of
checks performed, and the sequence of waits (in seconds) taken between
attempts. -/
structure PollTrace (α : Type) where
  result : PollResult α
  checks : Nat
  delays : List Nat
  deriving Repr, DecidableEq

/-- Modelled from the spec: the body of the poller loop.  `k` attempts remain,
`n` checks were already performed, `ds` are the waits taken so far; a failed
check with attempts remaining waits `delay` seconds before the next one. -/
def pollUntilAux {α : Type} (check : Nat → Option α) (delay : Nat) :
    Nat → Nat → List Nat → PollTrace α
  | 0, n, ds => ⟨.exhausted, n, ds⟩
  | k + 1, n, ds =>
    match check n with
    | some a => ⟨.complete a, n + 1, ds⟩
    | none =>
      if k = 0 then pollUntilAux check delay k (n + 1) ds
      else pollUntilAux check delay k (n + 1) (ds ++ [delay])

/-- Modelled from the spec: `pollUntil(check, maxAttempts, delay)` (§4.4) —
the consistency poller is referenced by the invoice-creation flow but its
source is absent from the snapshot.  Bounded loop: run `check` up to
`maxAttempts` times, a fixed `delay`-second wait between attempts, `complete`
as soon as the check reports complete, `exhausted` otherwise. -/
def pollUntil {α : Type} (check : Nat → Option α) (maxAttempts delay : Nat) :
    PollTrace α :=
  pollUntilAux check delay maxAttempts 0 []

/-- Modelled from the spec: the observed hard cap on attempts (§4.4). -/
def pollMaxAttempts : Nat := 6

/-- Modelled from the spec: the observed fixed delay in seconds between
attempts (§4.4). -/
def pollDelaySeconds : Nat := 10

/-! ## Helper lemmas -/

theorem jsOrD_idem (a : Option String) (d : String) :
    jsOrD (some (jsOrD a d)) d = jsOrD a d := by
  by_cases h : strTruthy a = true
  · cases a with
    | none => simp [strTruthy] at h
    | some s =>
      have hs : s ≠ "" := by simpa [strTruthy] using h
      simp [jsOrD, strTruthy, hs]
  · have hd : jsOrD a d = d := by simp [jsOrD, h]
    rw [hd]
    rcases eq_or_ne d "" with he | he
    · subst he; simp [jsOrD, strTruthy]
    · simp [jsOrD, strTruthy, he]

/-- Rows produced by the payment-status update map: every row carrying the
updated Confido invoice id holds the incoming amount and the `paid`
status. -/
theorem paidMap_mem (cid : String) (amount : Int) (pd : Option String)
    (l : List InvoiceRow) :
    ∀ row ∈ l.map (fun x => if x.confido_invoice_id = some cid then
        { x with amount_paid := amount, status := "paid", paid_date := pd } else x),
      row.confido_invoice_id = some cid →
      row.amount_paid = amount ∧ row.status = "paid" := by
  intro row hmem hcid
  obtain ⟨x, hx, hrow⟩ := List.mem_map.mp hmem
  by_cases hxc : x.confido_invoice_id = some cid
  · rw [if_pos hxc] at hrow
    rw [← hrow]
    exact ⟨rfl, rfl⟩
  · rw [if_neg hxc] at hrow
    rw [← hrow] at hcid
    exact absurd hcid hxc

/-- The `confido_payments` record the payment-received handler builds, as a
function of the request, the invoice row it found, and the clock. -/
def paymentRecOf (req : PaymentReq) (invoice : InvoiceRow) (now : String) : PaymentRow :=
  paymentRecordOf
    { confidoPaymentId := (jsOr (jsOr req.payment_id req.paymentId) req.id).getD ""
      confidoInvoiceId := jsOr req.invoice_id req.invoiceId
      ghlInvoiceId := some invoice.ghl_invoice_id
      ghlContactId := invoice.ghl_contact_id
      ghlOpportunityId := invoice.ghl_opportunity_id
      amount := jsOrInt req.amount req.payment_amount
      paymentMethod := jsOr req.payment_method req.paymentMethod
      status := some (jsOrD req.status "completed")
      transactionDate := some (jsOrD (jsOr req.transaction_date req.transactionDate) now)
      rawWebhookData := some req.raw }

/-- The payment-received handler on its success path: with the validations
passing, the signature acceptable, the invoice present and the two checked
Supabase calls succeeding, the whole run is determined (the unchecked insert
outcome only selects whether the payment row lands). -/
theorem processPaymentWebhook_success (req : PaymentReq) (oc : PaymentOutcomes)
    (now : String) (st : Store) (invoice : InvoiceRow)
    (hsig : oc.sigValid = true)
    (hlook : oc.lookupDbOk = true) (hupd : oc.updateDbOk = true)
    (hpid : strTruthy (jsOr (jsOr req.payment_id req.paymentId) req.id) = true)
    (hcid : strTruthy (jsOr req.invoice_id req.invoiceId) = true)
    (hamt : 0 < jsOrInt req.amount req.payment_amount)
    (hfind : st.invoices.find?
        (fun x => x.confido_invoice_id = some ((jsOr req.invoice_id req.invoiceId).getD ""))
      = some invoice) :
    processPaymentWebhook req oc now st =
      { resp := .ok "Payment processed successfully"
          (if oc.insertDbOk then some (paymentRecOf req invoice now) else none)
          ((jsOr (jsOr req.payment_id req.paymentId) req.id).getD "")
          invoice.ghl_invoice_id (jsOrInt req.amount req.payment_amount) "paid"
        store :=
          { invoices := st.invoices.map (fun x =>
              if x.confido_invoice_id = some ((jsOr req.invoice_id req.invoiceId).getD "")
              then { x with
                      amount_paid := jsOrInt req.amount req.payment_amount
                      status := "paid"
                      paid_date := some (jsOrD (jsOr req.transaction_date req.transactionDate) now) }
              else x)
            confido_payments :=
              if oc.insertDbOk then
                upsertPayment (paymentRecOf req invoice now) st.confido_payments
              else st.confido_payments }
        trace := [Step.lookupInvoice, Step.updateInvoiceStatus, Step.insertPaymentRow]
          ++ (if strTruthy (some invoice.ghl_invoice_id) then
                [Step.mirrorGhlPayment oc.ghlRecordOk] else [])
          ++ (if strTruthy invoice.ghl_opportunity_id then
                [Step.createGhlTask oc.ghlTaskOk] else []) } := by
  have hamt' : ¬ (jsOrInt req.amount req.payment_amount ≤ 0) := not_le.mpr hamt
  unfold processPaymentWebhook
  simp only [hsig, Bool.not_true, Bool.and_false, Bool.false_eq_true, if_false,
    hpid, hcid, Bool.not_true, if_neg hamt', ite_false]
  unfold getInvoiceByconfidoId
  rw [hlook, if_pos rfl, hfind]
  unfold updateInvoicePaymentStatus
  rw [hupd]
  simp only [if_pos rfl, hfind, Bool.not_true]
  unfold savePaymentToSupabase paymentRecOf
  cases hins : oc.insertDbOk <;>
    simp [hins, jsOrD_idem] <;>
    by_cases h1 : strTruthy (some invoice.ghl_invoice_id) = true <;>
    by_cases h2 : strTruthy invoice.ghl_opportunity_id = true <;>
    simp [h1, h2]

/-- C10: A payment-received request without a signature header is processed
with no signature verification at all; the 401 rejection is reachable
exactly when one of `x-confido-signature` / `x-webhook-signature` is present
and verification fails. -/
theorem paymentWebhook_unauthorized_iff (req : PaymentReq) (oc : PaymentOutcomes)
    (now : String) (st : Store) :
    (processPaymentWebhook req oc now st).resp = PaymentResp.unauthorized ↔
      (strTruthy (jsOr req.x_confido_signature req.x_webhook_signature) = true ∧
        oc.sigValid = false) := by
  unfold processPaymentWebhook
  by_cases h : (strTruthy (jsOr req.x_confido_signature req.x_webhook_signature)
      && !oc.sigValid) = true
  · rw [if_pos h]
    simp only [Bool.and_eq_true, Bool.not_eq_true'] at h
    simp [h.1, h.2]
  · rw [if_neg h]
    simp only [Bool.and_eq_true, Bool.not_eq_true'] at h
    have hr : ¬ (strTruthy (jsOr req.x_confido_signature req.x_webhook_signature) = true ∧
        oc.sigValid = false) := h
    simp only [hr, iff_false]
    split
    · simp
    · split
      · simp
      · split
        · simp
        · split
          · simp
          · simp
          · split <;> simp

theorem pollUntilAux_never {α : Type} (check : Nat → Option α) (delay : Nat)
    (h : ∀ m, check m = none) :
    ∀ (k n : Nat) (ds : List Nat),
      pollUntilAux check delay k n ds =
        ⟨PollResult.exhausted, n + k, ds ++ List.replicate (k - 1) delay⟩ := by
  intro k
  induction k with
  | zero => intro n ds; simp [pollUntilAux]
  | succ j ih =>
    intro n ds
    rw [pollUntilAux, h n]
    by_cases hj : j = 0
    · subst hj
      simp [pollUntilAux]
    · rw [if_neg hj, ih (n + 1) (ds ++ [delay])]
      obtain ⟨i, rfl⟩ := Nat.exists_eq_succ_of_ne_zero hj
      simp only [PollTrace.mk.injEq, List.append_assoc, true_and]
      exact ⟨by omega, by simp [List.replicate_succ]⟩

/-- C4: Given a check that never reports complete, the consistency poller
performs exactly `maxAttempts` checks, waits the same fixed delay between
consecutive attempts (no exponential backoff), and returns `exhausted`; the
observed configuration is a hard cap of 6 attempts with a 10-second
delay. -/
theorem pollUntil_never_exhausts {α : Type} (check : Nat → Option α)
    (maxAttempts delay : Nat) (h : ∀ m, check m = none) :
    pollUntil check maxAttempts delay =
      ⟨PollResult.exhausted, maxAttempts, List.replicate (maxAttempts - 1) delay⟩ ∧
    pollMaxAttempts = 6 ∧ pollDelaySeconds = 10 := by
  refine ⟨?_, rfl, rfl⟩
  rw [pollUntil, pollUntilAux_never check delay h]
  simp

theorem pollUntil_never_exhausts_witness :
    pollUntil (fun _ => (none : Option Unit)) pollMaxAttempts pollDelaySeconds =
      ⟨PollResult.exhausted, 6, List.replicate 5 10⟩ ∧
    pollMaxAttempts = 6 ∧ pollDelaySeconds = 10 :=
  pollUntil_never_exhausts (fun _ => (none : Option Unit)) pollMaxAttempts
    pollDelaySeconds (fun _ => rfl)

theorem taskAfterResolve_noMapping (t : TaskData) (env : TaskEnv) (od : OppDetails)
    (hfetch : env.fetchOpp = Except.ok od)
    (hq : env.mappingQueryOk = true)
    (hmap : ∀ m ∈ activeMappingsFor env.mappings (jsOr od.pipelineStageId od.stageId),
      strTruthy m.target_stage_id = false) :
    ∃ msg, taskAfterResolve t env = (TaskResult.ok msg none, false) := by
  unfold taskAfterResolve
  rw [hfetch]
  by_cases ht : t.title = some finalTaskTitle
  · cases hm : activeMappingsFor env.mappings (jsOr od.pipelineStageId od.stageId) with
    | nil =>
      exact ⟨"No stage mapping configured", by simp [ht, hq, hm]⟩
    | cons m rest =>
      have hms := hmap m (by rw [hm]; exact List.mem_cons_self m rest)
      exact ⟨"Target stage ID not configured yet", by simp [ht, hq, hm, hms]⟩
  · exact ⟨"Not the final task", by simp [ht]⟩

/-- C8: A task-completion event whose opportunity's current stage has no
active stage-mapping rule, or whose matching rule has no configured target
stage id, yields a success/no-op result — never an error — and
`updateOpportunityStage` is not invoked. -/
theorem taskCompletion_noMapping_noop (t : TaskData) (env : TaskEnv)
    (od : OppDetails) (opps : List OppSearchItem)
    (hfetch : env.fetchOpp = Except.ok od)
    (hsearch : env.search = Except.ok opps)
    (hq : env.mappingQueryOk = true)
    (hmap : ∀ m ∈ activeMappingsFor env.mappings (jsOr od.pipelineStageId od.stageId),
      strTruthy m.target_stage_id = false) :
    ∃ msg, processTaskCompletion t env = (TaskResult.ok msg none, false) := by
  unfold processTaskCompletion
  by_cases hc : strTruthy t.contactId = true
  · by_cases ho : strTruthy t.opportunityId = true
    · simpa [hc, ho] using taskAfterResolve_noMapping t env od hfetch hq hmap
    · rw [hsearch]
      by_cases he : opps.isEmpty
      · exact ⟨"No opportunity found for contact", by simp [hc, ho, he]⟩
      · simpa [hc, ho, he] using taskAfterResolve_noMapping t env od hfetch hq hmap
  · exact ⟨"No contact to process", by simp [hc]⟩

/-- A concrete task-completion environment: the opportunity sits in stage
`stageA`, while the only (active) mapping rule is for `stageB`. -/
def sampleTaskEnv : TaskEnv :=
  { search := Except.ok [⟨"OPP1", some "open"⟩]
    fetchOpp := Except.ok ⟨some "stageA", none, some "pipe1"⟩
    mappings := [⟨"stageB", true, some "stageC", some "pipe2", none, none, none⟩]
    mappingQueryOk := true
    updateStageOk := true }

/-- A concrete completed final task for contact `CT1`. -/
def sampleTaskData : TaskData :=
  ⟨some "CT1", some finalTaskTitle, some "OPP1", some "T1"⟩

theorem taskCompletion_noMapping_noop_witness :
    ∃ msg, processTaskCompletion sampleTaskData sampleTaskEnv =
      (TaskResult.ok msg none, false) :=
  taskCompletion_noMapping_noop sampleTaskData sampleTaskEnv
    ⟨some "stageA", none, some "pipe1"⟩ [⟨"OPP1", some "open"⟩]
    rfl rfl rfl (by decide)

/-- A concrete ledger invoice row linked to Confido invoice `CONFINV1`. -/
def sampleInvoice : InvoiceRow :=
  { ghl_invoice_id := "GHLINV1"
    ghl_opportunity_id := some "OPP1"
    ghl_contact_id := some "CT1"
    opportunity_name := some "Estate Plan"
    primary_contact_name := some "Ann Lee"
    confido_invoice_id := some "CONFINV1"
    confido_client_id := some "CL1"
    confido_matter_id := some "MAT1"
    invoice_number := some "1001"
    amount_due := 500
    amount_paid := 0
    status := "unpaid"
    invoice_date := some "2025-01-01"
    due_date := some "2025-02-01"
    paid_date := none }

/-- A concrete ledger holding just `sampleInvoice` and no payments. -/
def sampleStore : Store := ⟨[sampleInvoice], []⟩

theorem updateStatus_mem (cid : String) (p : PaymentPatch) (now : String) (st : Store) :
    ∀ row ∈ ((updateInvoicePaymentStatus cid p now true st).2).invoices,
      row.confido_invoice_id = some cid →
      row.amount_paid = p.amount ∧ row.status = "paid" := by
  intro row hmem hcid
  unfold updateInvoicePaymentStatus at hmem
  rw [if_pos rfl] at hmem
  cases hf : st.invoices.find? (fun x => x.confido_invoice_id = some cid) with
  | none =>
    rw [hf] at hmem
    simp only [] at hmem
    have := List.find?_eq_none.mp hf row hmem
    simp [hcid] at this
  | some r0 =>
    rw [hf] at hmem
    simp only [] at hmem
    exact paidMap_mem cid p.amount (some (jsOrD p.transactionDate now))
      st.invoices row hmem hcid

/-- Applying a sequence of payment events through
`updateInvoicePaymentStatus` (every database call succeeding). -/
def applyPayments (cid : String) (ps : List PaymentPatch) (now : String)
    (st : Store) : Store :=
  ps.foldl (fun s p => (updateInvoicePaymentStatus cid p now true s).2) st

/-- C9: `updateInvoicePaymentStatus` overwrites `amount_paid` with the
incoming amount and sets `status` to `'paid'` unconditionally — no
accumulation, no comparison against `amount_due` — so after any nonempty
sequence of payment events every matching invoice row carries exactly the
last payment's amount and the `'paid'` status. -/
theorem updatePaymentStatus_overwrites (cid : String) (now : String) :
    ∀ (ps : List PaymentPatch) (hne : ps ≠ []) (st : Store),
      ∀ row ∈ (applyPayments cid ps now st).invoices,
        row.confido_invoice_id = some cid →
        row.amount_paid = (ps.getLast hne).amount ∧ row.status = "paid" := by
  intro ps
  induction ps with
  | nil => intro hne; exact absurd rfl hne
  | cons p rest ih =>
    intro hne st row hmem hcid
    cases rest with
    | nil =>
      simp only [applyPayments, List.foldl] at hmem
      have h1 := updateStatus_mem cid p now st row hmem hcid
      simpa [List.getLast] using h1
    | cons q qs =>
      have hmem' : row ∈ (applyPayments cid (q :: qs) now
          ((updateInvoicePaymentStatus cid p now true st).2)).invoices := by
        simpa [applyPayments, List.foldl] using hmem
      have h2 := ih (by simp) ((updateInvoicePaymentStatus cid p now true st).2)
        row hmem' hcid
      simpa [List.getLast_cons] using h2

theorem updatePaymentStatus_overwrites_witness :
    ([⟨500, some "2025-03-01"⟩, ⟨300, none⟩] : List PaymentPatch) ≠ [] ∧
    ∀ row ∈ (applyPayments "CONFINV1"
        [⟨500, some "2025-03-01"⟩, ⟨300, none⟩] "2025-03-02" sampleStore).invoices,
      row.confido_invoice_id = some "CONFINV1" →
      row.amount_paid = 300 ∧ row.status = "paid" :=
  ⟨by decide, fun row h hc => by
    have h3 := updatePaymentStatus_overwrites "CONFINV1" "2025-03-02"
      [⟨500, some "2025-03-01"⟩, ⟨300, none⟩] (by decide) sampleStore row h hc
    simpa using h3⟩

/-- Upserting a payment into a table holding at most one row with its key
leaves exactly one row with that key. -/
theorem upsertPayment_countP (r : PaymentRow) (l : List PaymentRow)
    (h : l.countP (fun x => x.confido_payment_id = r.confido_payment_id) ≤ 1) :
    (upsertPayment r l).countP
      (fun x => x.confido_payment_id = r.confido_payment_id) = 1 := by
  unfold upsertPayment
  by_cases ha : l.any (fun x => x.confido_payment_id = r.confido_payment_id) = true
  · rw [if_pos ha, List.countP_map]
    have hcomp : l.countP
        ((fun x : PaymentRow => x.confido_payment_id = r.confido_payment_id) ∘
          (fun x => if x.confido_payment_id = r.confido_payment_id then r else x)) =
        l.countP (fun x => x.confido_payment_id = r.confido_payment_id) := by
      apply List.countP_congr
      intro x _
      by_cases hx : x.confido_payment_id = r.confido_payment_id
      · simp [hx]
      · simp [hx]
    rw [hcomp]
    have hpos : 0 < l.countP (fun x => x.confido_payment_id = r.confido_payment_id) := by
      rw [List.countP_pos_iff]
      obtain ⟨x, hxl, hxp⟩ := List.any_eq_true.mp ha
      exact ⟨x, hxl, hxp⟩
    omega
  · rw [if_neg ha, List.countP_append]
    have h0 : l.countP (fun x => x.confido_payment_id = r.confido_payment_id) = 0 := by
      rw [List.countP_eq_zero]
      intro a hal hpa
      exact ha (List.any_eq_true.mpr ⟨a, hal, hpa⟩)
    simp [h0]

/-- C1: Delivering the same `PaymentReceived` webhook twice (same Confido
payment id) leaves exactly one row for that payment id in the
`confido_payments` table, and the invoice's `amount_paid` equals the payment
amount — it is overwritten, never double-counted. -/
theorem paymentWebhook_replay_idempotent (req : PaymentReq) (oc : PaymentOutcomes)
    (now : String) (st : Store) (invoice : InvoiceRow)
    (hsig : oc.sigValid = true) (hlook : oc.lookupDbOk = true)
    (hupd : oc.updateDbOk = true) (hins : oc.insertDbOk = true)
    (hpid : strTruthy (jsOr (jsOr req.payment_id req.paymentId) req.id) = true)
    (hcid : strTruthy (jsOr req.invoice_id req.invoiceId) = true)
    (hamt : 0 < jsOrInt req.amount req.payment_amount)
    (hfind : st.invoices.find?
        (fun x => x.confido_invoice_id = some ((jsOr req.invoice_id req.invoiceId).getD ""))
      = some invoice)
    (huniq : st.confido_payments.countP
        (fun x => x.confido_payment_id =
          (jsOr (jsOr req.payment_id req.paymentId) req.id).getD "") ≤ 1) :
    ((processPaymentWebhook req oc now
        (processPaymentWebhook req oc now st).store).store.confido_payments.countP
      (fun x => x.confido_payment_id =
        (jsOr (jsOr req.payment_id req.paymentId) req.id).getD "") = 1) ∧
    ∀ row ∈ (processPaymentWebhook req oc now
        (processPaymentWebhook req oc now st).store).store.invoices,
      row.confido_invoice_id = some ((jsOr req.invoice_id req.invoiceId).getD "") →
      row.amount_paid = jsOrInt req.amount req.payment_amount := by
  have hrun1 := processPaymentWebhook_success req oc now st invoice
    hsig hlook hupd hpid hcid hamt hfind
  have hst1inv : (processPaymentWebhook req oc now st).store.invoices =
      st.invoices.map (fun x =>
        if x.confido_invoice_id = some ((jsOr req.invoice_id req.invoiceId).getD "")
        then { x with
                amount_paid := jsOrInt req.amount req.payment_amount
                status := "paid"
                paid_date := some (jsOrD (jsOr req.transaction_date req.transactionDate) now) }
        else x) := by
    rw [hrun1]
  have hst1pay : (processPaymentWebhook req oc now st).store.confido_payments =
      upsertPayment (paymentRecOf req invoice now) st.confido_payments := by
    rw [hrun1]; simp [hins]
  have hfx : invoice.confido_invoice_id =
      some ((jsOr req.invoice_id req.invoiceId).getD "") := by
    have := List.find?_some hfind
    simpa using this
  have hfind2 : (processPaymentWebhook req oc now st).store.invoices.find?
      (fun x => x.confido_invoice_id = some ((jsOr req.invoice_id req.invoiceId).getD ""))
      = some ({ invoice with
                amount_paid := jsOrInt req.amount req.payment_amount
                status := "paid"
                paid_date := some (jsOrD (jsOr req.transaction_date req.transactionDate) now) }) := by
    rw [hst1inv, List.find?_map]
    have hcomp : ((fun x : InvoiceRow =>
        decide (x.confido_invoice_id = some ((jsOr req.invoice_id req.invoiceId).getD ""))) ∘
        (fun x => if x.confido_invoice_id = some ((jsOr req.invoice_id req.invoiceId).getD "")
          then { x with
                  amount_paid := jsOrInt req.amount req.payment_amount
                  status := "paid"
                  paid_date := some (jsOrD (jsOr req.transaction_date req.transactionDate) now) }
          else x)) =
        (fun x : InvoiceRow =>
          decide (x.confido_invoice_id = some ((jsOr req.invoice_id req.invoiceId).getD ""))) := by
      funext x
      by_cases hx : x.confido_invoice_id = some ((jsOr req.invoice_id req.invoiceId).getD "")
      · simp [hx]
      · simp [hx]
    rw [hcomp, hfind]
    simp [hfx]
  have hrun2 := processPaymentWebhook_success req oc now
    (processPaymentWebhook req oc now st).store
    ({ invoice with
        amount_paid := jsOrInt req.amount req.payment_amount
        status := "paid"
        paid_date := some (jsOrD (jsOr req.transaction_date req.transactionDate) now) })
    hsig hlook hupd hpid hcid hamt hfind2
  have hrec : paymentRecOf req
      ({ invoice with
          amount_paid := jsOrInt req.amount req.payment_amount
          status := "paid"
          paid_date := some (jsOrD (jsOr req.transaction_date req.transactionDate) now) }) now =
      paymentRecOf req invoice now := rfl
  constructor
  · rw [hrun2]
    simp only [hins, if_true, hrec, hst1pay]
    have hkey : (paymentRecOf req invoice now).confido_payment_id =
        (jsOr (jsOr req.payment_id req.paymentId) req.id).getD "" := rfl
    rw [← hkey] at huniq ⊢
    have h1 : (upsertPayment (paymentRecOf req invoice now) st.confido_payments).countP
        (fun x => x.confido_payment_id = (paymentRecOf req invoice now).confido_payment_id)
        = 1 := upsertPayment_countP _ _ huniq
    exact upsertPayment_countP _ _ (by omega)
  · intro row hmem hrowcid
    rw [hrun2] at hmem
    simp only [] at hmem
    exact (paidMap_mem ((jsOr req.invoice_id req.invoiceId).getD "")
      (jsOrInt req.amount req.payment_amount)
      (some (jsOrD (jsOr req.transaction_date req.transactionDate) now))
      (processPaymentWebhook req oc now st).store.invoices row hmem hrowcid).1

/-- A concrete Confido payment-received webhook for invoice `CONFINV1`. -/
def samplePayReq : PaymentReq :=
  { x_confido_signature := none
    x_webhook_signature := none
    payment_id := some "PAY1"
    paymentId := none
    id := none
    invoice_id := some "CONFINV1"
    invoiceId := none
    amount := some 500
    payment_amount := none
    payment_method := some "card"
    paymentMethod := none
    status := none
    transaction_date := some "2025-03-01"
    transactionDate := none
    raw := "rawPayload" }

/-- Every external call of the payment flow succeeds. -/
def allOkOutcomes : PaymentOutcomes := ⟨true, true, true, true, true, true⟩

theorem paymentWebhook_replay_idempotent_witness :
    ((processPaymentWebhook samplePayReq allOkOutcomes "2025-03-02"
        (processPaymentWebhook samplePayReq allOkOutcomes "2025-03-02"
          sampleStore).store).store.confido_payments.countP
      (fun x => x.confido_payment_id =
        (jsOr (jsOr samplePayReq.payment_id samplePayReq.paymentId)
          samplePayReq.id).getD "") = 1) ∧
    ∀ row ∈ (processPaymentWebhook samplePayReq allOkOutcomes "2025-03-02"
        (processPaymentWebhook samplePayReq allOkOutcomes "2025-03-02"
          sampleStore).store).store.invoices,
      row.confido_invoice_id =
        some ((jsOr samplePayReq.invoice_id samplePayReq.invoiceId).getD "") →
      row.amount_paid = jsOrInt samplePayReq.amount samplePayReq.payment_amount :=
  paymentWebhook_replay_idempotent samplePayReq allOkOutcomes "2025-03-02"
    sampleStore sampleInvoice rfl rfl rfl rfl (by decide) (by decide)
    (by decide) (by decide) (by decide)

/-- Re-upserting under the same `ghl_invoice_id` key collapses: the earlier
upsert is absorbed by the later one. -/
theorem upsertInvoice_twice (a b : InvoiceRow) (l : List InvoiceRow)
    (h : a.ghl_invoice_id = b.ghl_invoice_id) :
    upsertInvoice a (upsertInvoice b l) = upsertInvoice a l := by
  unfold upsertInvoice
  rw [h]
  have hpbf : ((fun x : InvoiceRow => decide (x.ghl_invoice_id = b.ghl_invoice_id)) ∘
      (fun x => if x.ghl_invoice_id = b.ghl_invoice_id then b else x)) =
      (fun x : InvoiceRow => decide (x.ghl_invoice_id = b.ghl_invoice_id)) := by
    funext x
    by_cases hx : x.ghl_invoice_id = b.ghl_invoice_id
    · simp [hx]
    · simp [hx]
  have hgf : ((fun x : InvoiceRow => if x.ghl_invoice_id = b.ghl_invoice_id then a else x) ∘
      (fun x => if x.ghl_invoice_id = b.ghl_invoice_id then b else x)) =
      (fun x : InvoiceRow => if x.ghl_invoice_id = b.ghl_invoice_id then a else x) := by
    funext x
    by_cases hx : x.ghl_invoice_id = b.ghl_invoice_id
    · simp [hx]
    · simp [hx]
  by_cases hb : l.any (fun x => x.ghl_invoice_id = b.ghl_invoice_id) = true
  · rw [if_pos hb, List.any_map, hpbf, if_pos hb, if_pos hb, List.map_map, hgf]
  · rw [if_neg hb, if_neg hb]
    have hab : (l ++ [b]).any (fun x => x.ghl_invoice_id = b.ghl_invoice_id) = true := by
      refine List.any_eq_true.mpr ⟨b, by simp, by simp⟩
    rw [if_pos hab, List.map_append]
    have hl : l.map (fun x => if x.ghl_invoice_id = b.ghl_invoice_id then a else x) = l := by
      conv_rhs => rw [show l = l.map id from (List.map_id l).symm]
      apply List.map_congr_left
      intro x hx
      by_cases hxa : x.ghl_invoice_id = b.ghl_invoice_id
      · exact absurd (List.any_eq_true.mpr ⟨x, hx, by simp [hxa]⟩) hb
      · simp [hxa]
    rw [hl]
    simp

/-- Upserting an invoice row into a table holding at most one row with its
key leaves exactly one row with that key. -/
theorem upsertInvoice_countP (r : InvoiceRow) (l : List InvoiceRow)
    (h : l.countP (fun x => x.ghl_invoice_id = r.ghl_invoice_id) ≤ 1) :
    (upsertInvoice r l).countP
      (fun x => x.ghl_invoice_id = r.ghl_invoice_id) = 1 := by
  unfold upsertInvoice
  by_cases ha : l.any (fun x => x.ghl_invoice_id = r.ghl_invoice_id) = true
  · rw [if_pos ha, List.countP_map]
    have hcomp : l.countP
        ((fun x : InvoiceRow => x.ghl_invoice_id = r.ghl_invoice_id) ∘
          (fun x => if x.ghl_invoice_id = r.ghl_invoice_id then r else x)) =
        l.countP (fun x => x.ghl_invoice_id = r.ghl_invoice_id) := by
      apply List.countP_congr
      intro x _
      by_cases hx : x.ghl_invoice_id = r.ghl_invoice_id
      · simp [hx]
      · simp [hx]
    rw [hcomp]
    have hpos : 0 < l.countP (fun x => x.ghl_invoice_id = r.ghl_invoice_id) := by
      rw [List.countP_pos_iff]
      exact List.any_eq_true.mp ha
    omega
  · rw [if_neg ha, List.countP_append]
    have h0 : l.countP (fun x => x.ghl_invoice_id = r.ghl_invoice_id) = 0 := by
      rw [List.countP_eq_zero]
      intro x hxl hpx
      exact ha (List.any_eq_true.mpr ⟨x, hxl, hpx⟩)
    simp [h0]

/-- The invoice-created handler, past its validations and with the first
Supabase upsert succeeding, changes the store only by one or two
same-keyed upserts into `invoices` — the rows written depend on the event
and the oracles, never on the prior store. -/
theorem processInvoiceCreated_store (w : InvWebhookData) (oc : InvoiceOutcomes)
    (ledger : List LedgerLink)
    (hid : strTruthy w.ghlInvoiceId = true) (hamt : 0 < w.amountDue)
    (hdb1 : oc.db1Ok = true) :
    ∃ r1 r2 : InvoiceRow,
      r1.ghl_invoice_id = w.ghlInvoiceId.getD "" ∧
      r2.ghl_invoice_id = w.ghlInvoiceId.getD "" ∧
      ∀ st : Store, (processInvoiceCreated w oc ledger st).2 =
        { st with invoices :=
            (if (confidoCreateInvoice oc.signal (w.ghlInvoiceId.getD "") ledger).success = true
                ∧ oc.db2Ok = true
             then upsertInvoice r2 (upsertInvoice r1 st.invoices)
             else upsertInvoice r1 st.invoices) } := by
  have hamt' : ¬ (w.amountDue ≤ 0) := not_le.mpr hamt
  refine ⟨invoiceRecordOf
      { ghlInvoiceId := w.ghlInvoiceId.getD ""
        opportunityId := w.opportunityId
        contactId := w.contactId
        opportunityName := w.opportunityName
        primaryContactName :=
          if strTruthy w.contactId && !strTruthy w.primaryContactName then
            match oc.fetchedContactName with
            | some n => some n
            | none => w.primaryContactName
          else w.primaryContactName
        confidoInvoiceId := none
        confidoClientId := none
        confidoMatterId := none
        invoiceNumber := w.invoiceNumber
        amountDue := w.amountDue
        amountPaid := some 0
        status := w.status
        invoiceDate := w.invoiceDate
        dueDate := w.dueDate
        paidDate := none },
    invoiceRecordOf
      { ghlInvoiceId := w.ghlInvoiceId.getD ""
        opportunityId := w.opportunityId
        contactId := w.contactId
        opportunityName := w.opportunityName
        primaryContactName :=
          if strTruthy w.contactId && !strTruthy w.primaryContactName then
            match oc.fetchedContactName with
            | some n => some n
            | none => w.primaryContactName
          else w.primaryContactName
        confidoInvoiceId :=
          (confidoCreateInvoice oc.signal (w.ghlInvoiceId.getD "") ledger).confidoInvoiceId
        confidoClientId :=
          (confidoCreateInvoice oc.signal (w.ghlInvoiceId.getD "") ledger).confidoClientId
        confidoMatterId :=
          (confidoCreateInvoice oc.signal (w.ghlInvoiceId.getD "") ledger).confidoMatterId
        invoiceNumber := w.invoiceNumber
        amountDue := w.amountDue
        amountPaid := some
          ((confidoCreateInvoice oc.signal (w.ghlInvoiceId.getD "") ledger).paid.getD 0)
        status := some (jsOrD
          (confidoCreateInvoice oc.signal (w.ghlInvoiceId.getD "") ledger).status "unpaid")
        invoiceDate := w.invoiceDate
        dueDate := w.dueDate
        paidDate := none },
    rfl, rfl, ?_⟩
  intro st
  by_cases hcs : (confidoCreateInvoice oc.signal (w.ghlInvoiceId.getD "") ledger).success = true
  · by_cases hdb2 : oc.db2Ok = true
    · simp [processInvoiceCreated, saveInvoiceToSupabase, hid, hamt', hdb1, hcs, hdb2]
    · simp [processInvoiceCreated, saveInvoiceToSupabase, hid, hamt', hdb1, hcs, hdb2]
  · simp [processInvoiceCreated, saveInvoiceToSupabase, hid, hamt', hdb1, hcs]

/-- One invoice-created delivery (first upsert succeeding) leaves exactly one
ledger row with the event's CRM invoice id, whatever the billing outcome. -/
theorem invCreated_count_one (w : InvWebhookData) (oc : InvoiceOutcomes)
    (ledger : List LedgerLink) (st : Store)
    (hid : strTruthy w.ghlInvoiceId = true) (hamt : 0 < w.amountDue)
    (hdb1 : oc.db1Ok = true)
    (huniq : st.invoices.countP
      (fun x => x.ghl_invoice_id = w.ghlInvoiceId.getD "") ≤ 1) :
    (processInvoiceCreated w oc ledger st).2.invoices.countP
      (fun x => x.ghl_invoice_id = w.ghlInvoiceId.getD "") = 1 := by
  obtain ⟨r1, r2, hk1, hk2, hrun⟩ := processInvoiceCreated_store w oc ledger hid hamt hdb1
  have hu1 : st.invoices.countP (fun x => x.ghl_invoice_id = r1.ghl_invoice_id) ≤ 1 := by
    rw [hk1]; exact huniq
  have hc1 : (upsertInvoice r1 st.invoices).countP
      (fun x => x.ghl_invoice_id = r1.ghl_invoice_id) = 1 :=
    upsertInvoice_countP r1 st.invoices hu1
  rw [hrun st]
  simp only []
  by_cases hc : (confidoCreateInvoice oc.signal (w.ghlInvoiceId.getD "") ledger).success = true
      ∧ oc.db2Ok = true
  · rw [if_pos hc]
    have hcle : (upsertInvoice r1 st.invoices).countP
        (fun x => x.ghl_invoice_id = r2.ghl_invoice_id) ≤ 1 := by
      rw [hk2.trans hk1.symm]; exact hc1.le
    have hc2 : (upsertInvoice r2 (upsertInvoice r1 st.invoices)).countP
        (fun x => x.ghl_invoice_id = r2.ghl_invoice_id) = 1 :=
      upsertInvoice_countP r2 _ hcle
    rw [← hk2]
    exact hc2
  · rw [if_neg hc, ← hk1]
    exact hc1

/-- A concrete GHL invoice-created webhook payload (normalized). -/
def sampleInvReq : InvWebhookData :=
  { ghlInvoiceId := some "GHLINV1"
    opportunityId := some "OPP1"
    contactId := some "CT1"
    opportunityName := some "Estate Plan"
    primaryContactName := some "Ann Lee"
    contactEmail := none
    contactPhone := none
    invoiceNumber := some "1001"
    amountDue := 500
    invoiceDate := some "2025-01-01"
    dueDate := some "2025-02-01"
    status := none
    lineItems := [] }

/-- Invoice-flow oracle where every external call succeeds and the billing
gateway creates fresh artifacts. -/
def sampleInvOutcomes : InvoiceOutcomes :=
  { fetchedContactName := none
    db1Ok := true
    signal := .created "CL1" "MAT1" "LINK1" "payurl1"
      (some "unpaid") (some 0) (some 500) (some 500)
    db2Ok := true }

/-- An empty ledger. -/
def emptyStore : Store := ⟨[], []⟩

/-- C3: When payment-link creation signals a duplicate for a CRM invoice id
that already produced a payment link, the invoice-created flow looks up the
existing ledger row by CRM invoice id and answers with a success response
carrying its stored payment URL — not an error.  (The billing gateway's
duplicate-recovery path is modelled from the spec; its source,
`confidoService.js`, is absent from the snapshot.) -/
theorem invoiceCreated_duplicateLink_returnsStoredUrl (w : InvWebhookData)
    (oc : InvoiceOutcomes) (ledger : List LedgerLink) (st : Store) (e : LedgerLink)
    (hid : strTruthy w.ghlInvoiceId = true) (hamt : 0 < w.amountDue)
    (hdb1 : oc.db1Ok = true)
    (hsig : oc.signal = BillingSignal.duplicatePaymentLink)
    (hfind : ledger.find? (fun x => x.crmInvoiceId = w.ghlInvoiceId.getD "") = some e) :
    (processInvoiceCreated w oc ledger st).1 =
      InvResp.created "Invoice created successfully in both systems"
        (w.ghlInvoiceId.getD "")
        ⟨none, none, none, some e.paymentUrl, none, none, none, none⟩
        w.amountDue := by
  have hamt' : ¬ (w.amountDue ≤ 0) := not_le.mpr hamt
  have hcr : confidoCreateInvoice oc.signal (w.ghlInvoiceId.getD "") ledger =
      ⟨true, none, none, none, some e.paymentUrl, none, none, none, none, none⟩ := by
    rw [hsig]
    unfold confidoCreateInvoice
    rw [hfind]
  simp [processInvoiceCreated, saveInvoiceToSupabase, hid, hamt', hdb1, hcr]

/-- Invoice-flow oracle where the billing gateway signals a duplicate
payment link. -/
def duplicateInvOutcomes : InvoiceOutcomes :=
  { fetchedContactName := none
    db1Ok := true
    signal := BillingSignal.duplicatePaymentLink
    db2Ok := true }

theorem invoiceCreated_duplicateLink_returnsStoredUrl_witness :
    (processInvoiceCreated sampleInvReq duplicateInvOutcomes
        [⟨"GHLINV1", "payurl1"⟩] emptyStore).1 =
      InvResp.created "Invoice created successfully in both systems" "GHLINV1"
        ⟨none, none, none, some "payurl1", none, none, none, none⟩ 500 :=
  invoiceCreated_duplicateLink_returnsStoredUrl sampleInvReq duplicateInvOutcomes
    [⟨"GHLINV1", "payurl1"⟩] emptyStore ⟨"GHLINV1", "payurl1"⟩
    (by decide) (by decide) rfl rfl (by decide)

/-- C2 counterexample: the canonical replay — the first delivery's billing
call creates the artifacts, the retried delivery signals
`DuplicatePaymentLink` — does NOT reproduce the single-delivery state: the
second delivery's ledger upsert overwrites the row's Confido identifiers
with null (only the payment URL is recovered), so not every field of the row
equals its value after a single delivery. -/
theorem invoiceCreated_replay_not_identical :
    (processInvoiceCreated sampleInvReq duplicateInvOutcomes
        [⟨"GHLINV1", "payurl1"⟩]
        (processInvoiceCreated sampleInvReq sampleInvOutcomes
          [⟨"GHLINV1", "payurl1"⟩] emptyStore).2).2 ≠
      (processInvoiceCreated sampleInvReq sampleInvOutcomes
        [⟨"GHLINV1", "payurl1"⟩] emptyStore).2 ∧
    ∀ row ∈ (processInvoiceCreated sampleInvReq duplicateInvOutcomes
        [⟨"GHLINV1", "payurl1"⟩]
        (processInvoiceCreated sampleInvReq sampleInvOutcomes
          [⟨"GHLINV1", "payurl1"⟩] emptyStore).2).2.invoices,
      row.ghl_invoice_id = "GHLINV1" →
      row.confido_invoice_id = none ∧ row.confido_client_id = none ∧
        row.confido_matter_id = none :=
  ⟨by decide, by decide⟩

/-- C2 (amended): replaying the same `InvoiceCreated` event yields exactly
one ledger row — the upsert is keyed on the CRM invoice id, so both
deliveries land on the same row — whatever outcomes the two deliveries'
external calls have (the first upsert succeeding in each); and when the
replay sees the same external outcomes as the first delivery, the final
store is identical, field for field.  (On the canonical replay, where the
retry's billing call signals `DuplicatePaymentLink`, the second upsert
overwrites the row's Confido identifiers with null, so full field equality
does not hold there.) -/
theorem invoiceCreated_replay (w : InvWebhookData) (oc1 oc2 : InvoiceOutcomes)
    (ledger1 ledger2 : List LedgerLink) (st : Store)
    (hid : strTruthy w.ghlInvoiceId = true) (hamt : 0 < w.amountDue)
    (hdb1a : oc1.db1Ok = true) (hdb1b : oc2.db1Ok = true)
    (huniq : st.invoices.countP
      (fun x => x.ghl_invoice_id = w.ghlInvoiceId.getD "") ≤ 1) :
    (processInvoiceCreated w oc2 ledger2
        (processInvoiceCreated w oc1 ledger1 st).2).2.invoices.countP
      (fun x => x.ghl_invoice_id = w.ghlInvoiceId.getD "") = 1 ∧
    (oc1 = oc2 → ledger1 = ledger2 →
      (processInvoiceCreated w oc2 ledger2
          (processInvoiceCreated w oc1 ledger1 st).2).2 =
        (processInvoiceCreated w oc1 ledger1 st).2) := by
  constructor
  · have h1 := invCreated_count_one w oc1 ledger1 st hid hamt hdb1a huniq
    exact invCreated_count_one w oc2 ledger2
      (processInvoiceCreated w oc1 ledger1 st).2 hid hamt hdb1b h1.le
  · rintro rfl rfl
    obtain ⟨r1, r2, hk1, hk2, hrun⟩ :=
      processInvoiceCreated_store w oc1 ledger1 hid hamt hdb1a
    have hk12 : r1.ghl_invoice_id = r2.ghl_invoice_id := hk1.trans hk2.symm
    by_cases hc : (confidoCreateInvoice oc1.signal (w.ghlInvoiceId.getD "")
        ledger1).success = true ∧ oc1.db2Ok = true
    · have h1 := hrun st
      rw [if_pos hc] at h1
      have h2 := hrun (processInvoiceCreated w oc1 ledger1 st).2
      rw [if_pos hc, h1] at h2
      rw [h1, h2]
      simp only []
      congr 1
      rw [upsertInvoice_twice r1 r2 _ hk12, upsertInvoice_twice r1 r1 _ rfl]
    · have h1 := hrun st
      rw [if_neg hc] at h1
      have h2 := hrun (processInvoiceCreated w oc1 ledger1 st).2
      rw [if_neg hc, h1] at h2
      rw [h1, h2]
      simp only []
      congr 1
      rw [upsertInvoice_twice r1 r1 _ rfl]

theorem invoiceCreated_replay_witness :
    (processInvoiceCreated sampleInvReq duplicateInvOutcomes
        [⟨"GHLINV1", "payurl1"⟩]
        (processInvoiceCreated sampleInvReq sampleInvOutcomes
          [⟨"GHLINV1", "payurl1"⟩] emptyStore).2).2.invoices.countP
      (fun x => x.ghl_invoice_id = sampleInvReq.ghlInvoiceId.getD "") = 1 ∧
    (sampleInvOutcomes = duplicateInvOutcomes →
      ([⟨"GHLINV1", "payurl1"⟩] : List LedgerLink) = [⟨"GHLINV1", "payurl1"⟩] →
      (processInvoiceCreated sampleInvReq duplicateInvOutcomes
          [⟨"GHLINV1", "payurl1"⟩]
          (processInvoiceCreated sampleInvReq sampleInvOutcomes
            [⟨"GHLINV1", "payurl1"⟩] emptyStore).2).2 =
        (processInvoiceCreated sampleInvReq sampleInvOutcomes
          [⟨"GHLINV1", "payurl1"⟩] emptyStore).2) :=
  invoiceCreated_replay sampleInvReq sampleInvOutcomes duplicateInvOutcomes
    [⟨"GHLINV1", "payurl1"⟩] [⟨"GHLINV1", "payurl1"⟩] emptyStore
    (by decide) (by decide) rfl rfl (by decide)

/-- Payment-flow oracle where only the payment-row insert fails. -/
def insertFailOutcomes : PaymentOutcomes := ⟨true, true, true, false, true, true⟩

/-- Payment-flow oracle where only the invoice-status update fails. -/
def updateFailOutcomes : PaymentOutcomes := ⟨true, true, false, true, true, true⟩

/-- Invoice-flow oracle where the first ledger upsert fails. -/
def failDb1Outcomes : InvoiceOutcomes :=
  { fetchedContactName := none
    db1Ok := false
    signal := BillingSignal.failed "unreachable"
    db2Ok := true }

/-- C5 counterexample: at a concrete request, the payment-row insert fails
(`insertDbOk = false`, so `savePaymentToSupabase` reports failure), yet the
payment-received handler still answers with the full success response — the
insert's result is never checked. -/
theorem paymentInsertFailure_not_reported :
    insertFailOutcomes.insertDbOk = false ∧
    (processPaymentWebhook samplePayReq insertFailOutcomes "2025-03-02"
        sampleStore).resp =
      PaymentResp.ok "Payment processed successfully" none "PAY1" "GHLINV1"
        500 "paid" :=
  ⟨rfl, by decide⟩

/-- C5 (amended): a failed ledger upsert fails the invoice-created request
(HTTP 500), and a failed invoice-status update fails the payment-received
request (HTTP 500); but a failed payment-row insert does NOT fail the
payment-received request — its result is unchecked and the handler still
reports success. -/
theorem criticalStep_failure_propagation :
    (∀ (w : InvWebhookData) (oc : InvoiceOutcomes) (ledger : List LedgerLink) (st : Store),
      strTruthy w.ghlInvoiceId = true → 0 < w.amountDue → oc.db1Ok = false →
      (processInvoiceCreated w oc ledger st).1 =
        InvResp.serverError "Failed to save invoice to database" (some "db error")) ∧
    (∀ (req : PaymentReq) (oc : PaymentOutcomes) (now : String) (st : Store),
      oc.sigValid = true → oc.lookupDbOk = true → oc.updateDbOk = false →
      strTruthy (jsOr (jsOr req.payment_id req.paymentId) req.id) = true →
      strTruthy (jsOr req.invoice_id req.invoiceId) = true →
      0 < jsOrInt req.amount req.payment_amount →
      (st.invoices.find? (fun x => x.confido_invoice_id =
        some ((jsOr req.invoice_id req.invoiceId).getD ""))).isSome = true →
      (processPaymentWebhook req oc now st).resp =
        PaymentResp.serverError "Failed to update invoice status" (some "db error")) ∧
    (∀ (req : PaymentReq) (oc : PaymentOutcomes) (now : String) (st : Store)
        (invoice : InvoiceRow),
      oc.sigValid = true → oc.lookupDbOk = true → oc.updateDbOk = true →
      oc.insertDbOk = false →
      strTruthy (jsOr (jsOr req.payment_id req.paymentId) req.id) = true →
      strTruthy (jsOr req.invoice_id req.invoiceId) = true →
      0 < jsOrInt req.amount req.payment_amount →
      st.invoices.find? (fun x => x.confido_invoice_id =
        some ((jsOr req.invoice_id req.invoiceId).getD "")) = some invoice →
      (processPaymentWebhook req oc now st).resp =
        PaymentResp.ok "Payment processed successfully" none
          ((jsOr (jsOr req.payment_id req.paymentId) req.id).getD "")
          invoice.ghl_invoice_id (jsOrInt req.amount req.payment_amount) "paid") := by
  refine ⟨?_, ?_, ?_⟩
  · intro w oc ledger st hid hamt hdb1
    have hamt' : ¬ (w.amountDue ≤ 0) := not_le.mpr hamt
    simp [processInvoiceCreated, saveInvoiceToSupabase, hid, hamt', hdb1]
  · intro req oc now st hsig hlook hupd hpid hcid hamt hfound
    obtain ⟨invoice, hfind⟩ := Option.isSome_iff_exists.mp hfound
    have hamt' : ¬ (jsOrInt req.amount req.payment_amount ≤ 0) := not_le.mpr hamt
    unfold processPaymentWebhook
    simp only [hsig, Bool.not_true, Bool.and_false, Bool.false_eq_true, if_false,
      hpid, hcid, if_neg hamt', ite_false]
    unfold getInvoiceByconfidoId
    rw [hlook, if_pos rfl, hfind]
    unfold updateInvoicePaymentStatus
    rw [hupd]
    simp
  · intro req oc now st invoice hsig hlook hupd hins hpid hcid hamt hfind
    rw [processPaymentWebhook_success req oc now st invoice hsig hlook hupd
      hpid hcid hamt hfind]
    simp [hins]

theorem criticalStep_failure_propagation_witness :
    (processInvoiceCreated sampleInvReq failDb1Outcomes [] emptyStore).1 =
      InvResp.serverError "Failed to save invoice to database" (some "db error") ∧
    (processPaymentWebhook samplePayReq updateFailOutcomes "2025-03-02"
        sampleStore).resp =
      PaymentResp.serverError "Failed to update invoice status" (some "db error") ∧
    (processPaymentWebhook samplePayReq insertFailOutcomes "2025-03-02"
        sampleStore).resp =
      PaymentResp.ok "Payment processed successfully" none "PAY1" "GHLINV1"
        500 "paid" :=
  ⟨criticalStep_failure_propagation.1 sampleInvReq failDb1Outcomes [] emptyStore
      (by decide) (by decide) rfl,
   criticalStep_failure_propagation.2.1 samplePayReq updateFailOutcomes
      "2025-03-02" sampleStore rfl rfl rfl (by decide) (by decide) (by decide)
      (by decide),
   criticalStep_failure_propagation.2.2 samplePayReq insertFailOutcomes
      "2025-03-02" sampleStore sampleInvoice rfl rfl rfl rfl (by decide)
      (by decide) (by decide) (by decide)⟩

/-- Payment-flow oracle where only the GHL payment-mirroring call fails. -/
def mirrorFailOutcomes : PaymentOutcomes := ⟨true, true, true, true, false, true⟩

/-- Payment-flow oracle where only the GHL notification-task call fails. -/
def taskFailOutcomes : PaymentOutcomes := ⟨true, true, true, true, true, false⟩

/-- C6 counterexample: at a concrete request, a failing best-effort sub-step
(the CRM payment mirroring, or the CRM notification task) produces a
response body identical to the all-success response — the failure is not
returned in the response. -/
theorem bestEffortFailure_not_in_response :
    mirrorFailOutcomes.ghlRecordOk = false ∧ taskFailOutcomes.ghlTaskOk = false ∧
    (processPaymentWebhook samplePayReq mirrorFailOutcomes "2025-03-02"
        sampleStore).resp =
      (processPaymentWebhook samplePayReq allOkOutcomes "2025-03-02"
        sampleStore).resp ∧
    (processPaymentWebhook samplePayReq taskFailOutcomes "2025-03-02"
        sampleStore).resp =
      (processPaymentWebhook samplePayReq allOkOutcomes "2025-03-02"
        sampleStore).resp :=
  ⟨rfl, rfl, by decide, by decide⟩

/-- C6 (amended): the outcomes of the two best-effort GHL sub-steps of the
payment flow influence neither the response body nor the stored state — a
best-effort failure is logged only, never reported in the response (the
response remains the same structured object either way). -/
theorem bestEffort_isolated (req : PaymentReq) (oc : PaymentOutcomes) (now : String)
    (st : Store) (b1 b2 : Bool) :
    (processPaymentWebhook req { oc with ghlRecordOk := b1, ghlTaskOk := b2 }
        now st).resp =
      (processPaymentWebhook req oc now st).resp ∧
    (processPaymentWebhook req { oc with ghlRecordOk := b1, ghlTaskOk := b2 }
        now st).store =
      (processPaymentWebhook req oc now st).store := by
  unfold processPaymentWebhook
  by_cases h1 : (strTruthy (jsOr req.x_confido_signature req.x_webhook_signature)
      && !oc.sigValid) = true
  · simp [h1]
  · by_cases h2 : (!strTruthy (jsOr (jsOr req.payment_id req.paymentId) req.id)) = true
    · simp [h1, h2]
    · by_cases h3 : (!strTruthy (jsOr req.invoice_id req.invoiceId)) = true
      · simp [h1, h2, h3]
      · by_cases h4 : jsOrInt req.amount req.payment_amount ≤ 0
        · simp [h1, h2, h3, h4]
        · rcases hm : getInvoiceByconfidoId
              ((jsOr req.invoice_id req.invoiceId).getD "") oc.lookupDbOk st with
            ⟨(_|_), (_|invoice), err⟩
          · simp [h1, h2, h3, h4, hm]
          · simp [h1, h2, h3, h4, hm]
          · simp [h1, h2, h3, h4, hm]
          · by_cases h5 : ((updateInvoicePaymentStatus
                ((jsOr req.invoice_id req.invoiceId).getD "")
                ⟨jsOrInt req.amount req.payment_amount,
                  some (jsOrD (jsOr req.transaction_date req.transactionDate) now)⟩
                now oc.updateDbOk st).1.success = false)
            · simp [h1, h2, h3, h4, hm, h5]
            · simp [h1, h2, h3, h4, hm, h5]

theorem bestEffort_isolated_witness :
    (processPaymentWebhook samplePayReq
        { allOkOutcomes with ghlRecordOk := false, ghlTaskOk := false }
        "2025-03-02" sampleStore).resp =
      (processPaymentWebhook samplePayReq allOkOutcomes "2025-03-02"
        sampleStore).resp ∧
    (processPaymentWebhook samplePayReq
        { allOkOutcomes with ghlRecordOk := false, ghlTaskOk := false }
        "2025-03-02" sampleStore).store =
      (processPaymentWebhook samplePayReq allOkOutcomes "2025-03-02"
        sampleStore).store :=
  bestEffort_isolated samplePayReq allOkOutcomes "2025-03-02" sampleStore false false

/-- C7 counterexample: at a concrete successful payment-received run, the
trace shows the invoice-status update happening BEFORE the payment-row
insert — the claimed order (insert before update) does not hold. -/
theorem paymentSteps_order_counterexample :
    (processPaymentWebhook samplePayReq allOkOutcomes "2025-03-02"
        sampleStore).trace =
      [Step.lookupInvoice, Step.updateInvoiceStatus, Step.insertPaymentRow,
       Step.mirrorGhlPayment true, Step.createGhlTask true] ∧
    ¬ (List.indexOf Step.insertPaymentRow
        (processPaymentWebhook samplePayReq allOkOutcomes "2025-03-02"
          sampleStore).trace <
       List.indexOf Step.updateInvoiceStatus
        (processPaymentWebhook samplePayReq allOkOutcomes "2025-03-02"
          sampleStore).trace) :=
  ⟨by decide, by decide⟩

/-- C7 (amended): on the success path the payment-received protocol runs:
invoice lookup by billing invoice id first, then the invoice update
(`amount_paid`, `status = paid`, `paid_date`), then the idempotent upsert of
the payment row keyed by billing payment id, and only then the best-effort
side effects. -/
theorem paymentSteps_order (req : PaymentReq) (oc : PaymentOutcomes)
    (now : String) (st : Store) (invoice : InvoiceRow)
    (hsig : oc.sigValid = true)
    (hlook : oc.lookupDbOk = true) (hupd : oc.updateDbOk = true)
    (hpid : strTruthy (jsOr (jsOr req.payment_id req.paymentId) req.id) = true)
    (hcid : strTruthy (jsOr req.invoice_id req.invoiceId) = true)
    (hamt : 0 < jsOrInt req.amount req.payment_amount)
    (hfind : st.invoices.find?
        (fun x => x.confido_invoice_id = some ((jsOr req.invoice_id req.invoiceId).getD ""))
      = some invoice) :
    (processPaymentWebhook req oc now st).trace =
      [Step.lookupInvoice, Step.updateInvoiceStatus, Step.insertPaymentRow]
        ++ (if strTruthy (some invoice.ghl_invoice_id) then
              [Step.mirrorGhlPayment oc.ghlRecordOk] else [])
        ++ (if strTruthy invoice.ghl_opportunity_id then
              [Step.createGhlTask oc.ghlTaskOk] else []) := by
  rw [processPaymentWebhook_success req oc now st invoice hsig hlook hupd
    hpid hcid hamt hfind]

theorem paymentSteps_order_witness :
    (processPaymentWebhook samplePayReq allOkOutcomes "2025-03-02"
        sampleStore).trace =
      [Step.lookupInvoice, Step.updateInvoiceStatus, Step.insertPaymentRow]
        ++ (if strTruthy (some sampleInvoice.ghl_invoice_id) then
              [Step.mirrorGhlPayment true] else [])
        ++ (if strTruthy sampleInvoice.ghl_opportunity_id then
              [Step.createGhlTask true] else []) :=
  paymentSteps_order samplePayReq allOkOutcomes "2025-03-02" sampleStore
    sampleInvoice rfl rfl rfl (by decide) (by decide) (by decide) (by decide)
